import Mathlib

/-!
Shallow embedding of the messenger relay server (Express + socket.io + sqlite
backend in the repository) together with its token middleware and socket event
handlers.  Conventions used throughout:

* Each sqlite table is a `List` of record structures held in a `DB` value;
  list order is table (rowid / insertion) order, which is the scan order the
  source's unordered `SELECT ... LIMIT 1` queries observe.
* Read-only store operations (`SELECT`) are modelled as total; every write
  (`INSERT`) carries an explicit `insertOk : Bool` flag standing for the
  `err` parameter of the corresponding `db.run` callback.
* JavaScript string falsiness (`if (!x)`) on a request field is modelled on
  `Option String`: the field is falsy when absent or the empty string.
* bcrypt is modelled as an injective tagging function with its `compare`
  checking equality against the hash; the salt is abstracted away.
* JSON web tokens are modelled structurally: a token carries the payload,
  an expiry instant (seconds) and a signature string computed from the
  signing secret, payload, and expiry; `jwtVerify` checks the signature
  first and then expiry, producing distinguished internal error reasons,
  exactly as the `jsonwebtoken` library reports `JsonWebTokenError` versus
  `TokenExpiredError`.
* `JSON.stringify` applied to the opaque ciphertext payload is abstracted as
  the identity on the payload's string representation.
-/

/-- Row of the `users` table. `registration_id` and `identity_key` are
nullable columns and are never written by any handler in the source. -/
structure User where
  id : String
  username : String
  password_hash : String
  registration_id : Option Nat
  identity_key : Option String
deriving DecidableEq, Repr

/-- Row of the `contacts` table (edge `user_id → contact_id`). -/
structure Contact where
  id : String
  user_id : String
  contact_id : String
deriving DecidableEq, Repr

/-- Row of the `messages` table.  `timestamp` is the seconds-granularity
`CURRENT_TIMESTAMP` value assigned at insertion. -/
structure Message where
  id : String
  sender_id : String
  recipient_id : String
  encrypted_message : String
  plain_text : Option String
  timestamp : Nat
deriving DecidableEq, Repr

/-- Row of the `pre_keys` table (one-time pre-keys). -/
structure PreKey where
  id : String
  user_id : String
  key_id : Nat
  public_key : String
deriving DecidableEq, Repr

/-- Row of the `signed_pre_keys` table. -/
structure SignedPreKey where
  id : String
  user_id : String
  key_id : Nat
  public_key : String
  signature : String
deriving DecidableEq, Repr

/-- The sqlite database: one list per table, in rowid order. -/
structure DB where
  users : List User
  contacts : List Contact
  messages : List Message
  pre_keys : List PreKey
  signed_pre_keys : List SignedPreKey
deriving DecidableEq, Repr

def emptyDB : DB := ⟨[], [], [], [], []⟩

/-- An HTTP response: either `res.status(n).json({message})` or a 200
`res.json` carrying a typed body. -/
inductive HttpResult (α : Type) where
  | err (status : Nat) (message : String)
  | ok (body : α)
deriving DecidableEq, Repr

/-- JavaScript falsiness of an optional request string field:
`undefined`/missing and the empty string are falsy. -/
def optFalsy (o : Option String) : Bool := o.getD "" == ""

deriving instance DecidableEq for Except

/- ### Credential verifier: bcrypt and JWT models -/

def JWT_SECRET : String := "your-secret-key-change-in-production"

/-- bcrypt hash, modelled as an injective tagging of the password with the
cost factor (the random salt is abstracted away). -/
def bcryptHash (cost : Nat) (password : String) : String :=
  "bcrypt$" ++ toString cost ++ "$" ++ password

/-- `bcrypt.compare`: checks the password against a stored hash. -/
def bcryptCompare (password hash : String) : Bool :=
  hash == bcryptHash 10 password

/-- The claims payload `{ id, username }` embedded in every issued token. -/
structure JwtPayload where
  id : String
  username : String
deriving DecidableEq, Repr

/-- Structural model of a serialized JWT: payload, `exp` claim (seconds) and
signature over secret, payload and expiry. -/
structure Token where
  id : String
  username : String
  exp : Nat
  sig : String
deriving DecidableEq, Repr

def jwtSignature (secret id username : String) (exp : Nat) : String :=
  secret ++ "." ++ id ++ "." ++ username ++ "." ++ toString exp

/-- `jwt.sign({id, username}, secret, {expiresIn: '7d'})` at time `now`. -/
def jwtSign (id username secret : String) (now : Nat) : Token :=
  { id := id, username := username, exp := now + 604800
    sig := jwtSignature secret id username (now + 604800) }

/-- The two failure reasons `jwt.verify` can report (the library checks the
signature before the registered claims). -/
inductive JwtError where
  | invalidSignature
  | tokenExpired
deriving DecidableEq, Repr

/-- `jwt.verify(token, secret)` evaluated at time `now`. -/
def jwtVerify (t : Token) (secret : String) (now : Nat) :
    Except JwtError JwtPayload :=
  if t.sig ≠ jwtSignature secret t.id t.username t.exp then
    .error .invalidSignature
  else if t.exp ≤ now then
    .error .tokenExpired
  else
    .ok ⟨t.id, t.username⟩

/-- The `authenticateToken` Express middleware.  `none` stands for a missing
`Authorization` bearer token; any `jwt.verify` error is collapsed to the one
403 response. -/
def authenticateToken (token : Option Token) (now : Nat) :
    HttpResult JwtPayload :=
  match token with
  | none => .err 401 "Access token required"
  | some t =>
    match jwtVerify t JWT_SECRET now with
    | .error _ => .err 403 "Invalid token"
    | .ok user => .ok user

/-- The `io.use` socket handshake guard: missing token and any `jwt.verify`
exception both surface as the same `Error('Authentication error')`. -/
def ioUseAuth (token : Option Token) (now : Nat) :
    Except String JwtPayload :=
  match token with
  | none => .error "Authentication error"
  | some t =>
    match jwtVerify t JWT_SECRET now with
    | .error _ => .error "Authentication error"
    | .ok decoded => .ok decoded

/- ### `/api/auth/register` and `/api/auth/login` -/

/-- `POST /api/auth/register`.  `newId` stands for the freshly generated
`generateUserId()` value and `now` for the signing time.  Body of a success
response: `(token, user.id, user.username)`. -/
def registerHandler (db : DB) (username password : Option String)
    (newId : String) (now : Nat) (insertOk : Bool) :
    HttpResult (Token × String × String) × DB :=
  if optFalsy username || optFalsy password then
    (.err 400 "Username and password required", db)
  else
    let uname := username.getD ""
    let pword := password.getD ""
    if uname.length < 3 || 30 < uname.length then
      (.err 400 "Username must be 3-30 characters", db)
    else if pword.length < 6 then
      (.err 400 "Password must be at least 6 characters", db)
    else if db.users.any (fun u => u.username == uname) then
      (.err 400 "Username already exists", db)
    else if insertOk then
      (.ok (jwtSign newId uname JWT_SECRET now, newId, uname),
       { db with users :=
           db.users ++ [⟨newId, uname, bcryptHash 10 pword, none, none⟩] })
    else
      (.err 500 "Error creating user", db)

/-- `POST /api/auth/login`.  Read-only; returns
`(token, user.id, user.username)` on success. -/
def loginHandler (db : DB) (username password : Option String) (now : Nat) :
    HttpResult (Token × String × String) :=
  if optFalsy username || optFalsy password then
    .err 400 "Username and password required"
  else
    let uname := username.getD ""
    let pword := password.getD ""
    match db.users.find? (fun u => u.username == uname) with
    | none => .err 401 "Invalid credentials"
    | some user =>
      if bcryptCompare pword user.password_hash then
        .ok (jwtSign user.id user.username JWT_SECRET now,
             user.id, user.username)
      else
        .err 401 "Invalid credentials"

/- ### `/api/contacts/add` -/

/-- `POST /api/contacts/add`.  `userId` is `req.user.id` from the verified
token; `newEdgeId` stands for the generated `contact_...` row id; `insertOk`
models non-constraint insert failures (the `UNIQUE(user_id, contact_id)`
constraint itself is modelled from the table state). -/
def addContactHandler (db : DB) (userId : String) (username : Option String)
    (newEdgeId : String) (insertOk : Bool) :
    HttpResult (String × String) × DB :=
  match username with
  | none => (.err 400 "Username required", db)
  | some uname =>
    if uname == "" then (.err 400 "Username required", db)
    else
      match db.users.find? (fun u => u.username == uname) with
      | none => (.err 404 "User not found", db)
      | some contact =>
        if contact.id == userId then
          (.err 400 "Cannot add yourself as a contact", db)
        else if db.contacts.any
            (fun c => c.user_id == userId && c.contact_id == contact.id) then
          (.err 400 "Contact already exists", db)
        else if insertOk then
          (.ok (contact.id, contact.username),
           { db with contacts :=
               db.contacts ++ [⟨newEdgeId, userId, contact.id⟩] })
        else
          (.err 500 "Error adding contact", db)

/- ### `/api/keys/exchange` -/

/-- The `recipientKeys` object assembled from the contact row and the (at
most one, by `LIMIT 1`) fetched pre-key and signed-pre-key rows; absent rows
give `undefined` fields via optional chaining. -/
structure RecipientKeys where
  registrationId : Option Nat
  identityKey : Option String
  preKeyId : Option Nat
  preKeyPublic : Option String
  signedPreKeyId : Option Nat
  signedPreKeyPublic : Option String
  signedPreKeySignature : Option String
deriving DecidableEq, Repr

def recipientKeysOf (contact : User) (preKeys : List PreKey)
    (signedPreKeys : List SignedPreKey) : RecipientKeys :=
  { registrationId := contact.registration_id
    identityKey := contact.identity_key
    preKeyId := preKeys.head?.map (·.key_id)
    preKeyPublic := preKeys.head?.map (·.public_key)
    signedPreKeyId := signedPreKeys.head?.map (·.key_id)
    signedPreKeyPublic := signedPreKeys.head?.map (·.public_key)
    signedPreKeySignature := signedPreKeys.head?.map (·.signature) }

/-- `POST /api/keys/exchange`.  `userId` is the authenticated initiator.
The handler runs only `SELECT` statements, so the store component of the
result is always the input `db` unchanged. -/
def keysExchangeHandler (db : DB) (userId : String)
    (contactId publicKeyBundle : Option String) :
    HttpResult RecipientKeys × DB :=
  if optFalsy contactId || optFalsy publicKeyBundle then
    (.err 400 "Contact ID and public key bundle required", db)
  else
    let cid := contactId.getD ""
    match db.users.find? (fun u => u.id == cid) with
    | none => (.err 404 "Contact not found", db)
    | some contact =>
      let preKeys := (db.pre_keys.filter (fun k => k.user_id == cid)).take 1
      let signedPreKeys :=
        (db.signed_pre_keys.filter (fun k => k.user_id == cid)).take 1
      (.ok (recipientKeysOf contact preKeys signedPreKeys), db)

/- ### `/api/messages/:contactId` -/

/-- The `ORDER BY timestamp ASC` comparison key. -/
def byTimestamp (a b : Message) : Prop := a.timestamp ≤ b.timestamp

instance : DecidableRel byTimestamp :=
  fun a b => inferInstanceAs (Decidable (a.timestamp ≤ b.timestamp))

instance : IsTotal Message byTimestamp :=
  ⟨fun a b => Nat.le_total a.timestamp b.timestamp⟩

instance : IsTrans Message byTimestamp :=
  ⟨fun _ _ _ => Nat.le_trans⟩

/-- `GET /api/messages/:contactId` for the authenticated `userId`: both
directions of the pair, ordered by `timestamp` ascending.  The sort is
modelled as a stable sort of the table scan, so rows with equal timestamps
stay in rowid (insertion) order, matching the engine's behaviour for this
single-table query; the query has no further tie-breaking key. -/
def messagesHandler (db : DB) (userId contactId : String) : List Message :=
  List.insertionSort byTimestamp
    (db.messages.filter (fun m =>
      (m.sender_id == userId && m.recipient_id == contactId) ||
      (m.sender_id == contactId && m.recipient_id == userId)))

/- ### Socket layer: connection registry and `send_message` -/

/-- JS `Map.prototype.set` on the `connectedUsers` map (socket objects are
identified by an opaque numeric handle). -/
def mapSet : List (String × Nat) → String → Nat → List (String × Nat)
  | [], k, v => [(k, v)]
  | (k', v') :: rest, k, v =>
    if k' == k then (k, v) :: rest else (k', v') :: mapSet rest k v

/-- JS `Map.prototype.get`. -/
def mapGet : List (String × Nat) → String → Option Nat
  | [], _ => none
  | (k', v') :: rest, k => if k' == k then some v' else mapGet rest k

/-- JS `Map.prototype.delete` (keys are unique, so deleting the first
occurrence is exact). -/
def mapDelete : List (String × Nat) → String → List (String × Nat)
  | [], _ => []
  | (k', v') :: rest, k =>
    if k' == k then rest else (k', v') :: mapDelete rest k

/-- `io.on('connection')`: `connectedUsers.set(socket.userId, socket)`. -/
def connectionHandler (connectedUsers : List (String × Nat))
    (userId : String) (socketId : Nat) : List (String × Nat) :=
  mapSet connectedUsers userId socketId

/-- The per-socket `'disconnect'` handler:
`connectedUsers.delete(socket.userId)`.  `socketId` is the transport whose
disconnect event fired; the source never consults it. -/
def disconnectHandler (connectedUsers : List (String × Nat))
    (userId : String) (socketId : Nat) : List (String × Nat) :=
  mapDelete connectedUsers userId

/-- The `message` event pushed to a recipient's live socket. -/
structure PushEvent where
  socketId : Nat
  id : String
  senderId : String
  encryptedMessage : String
  timestamp : Nat
deriving DecidableEq, Repr

/-- Outcome of one `'send_message'` event: the store afterwards, the push (if
any) to the recipient's socket, and anything emitted back to the sender. The
source handler never emits to the sender, so `ack` records any such reply
(always `none`). -/
structure SendOutcome where
  db : DB
  pushed : Option PushEvent
  ack : Option String
deriving DecidableEq, Repr

/-- The `'send_message'` socket handler.  `messageId` stands for the
generated `msg_...` id and `now` for the row timestamp; `insertOk` models
the `err` parameter of the `db.run` INSERT callback — on error the handler
only logs and returns, so nothing is pushed and nothing reaches the sender.
The registry lookup and push happen inside the INSERT success callback. -/
def sendMessageHandler (db : DB) (connectedUsers : List (String × Nat))
    (senderId recipientId encryptedMessage : String)
    (plainText : Option String) (messageId : String) (now : Nat)
    (insertOk : Bool) : SendOutcome :=
  if insertOk then
    let db' := { db with messages :=
      db.messages ++
        [⟨messageId, senderId, recipientId, encryptedMessage,
          plainText, now⟩] }
    match mapGet connectedUsers recipientId with
    | some sock =>
      ⟨db', some ⟨sock, messageId, senderId, encryptedMessage, now⟩, none⟩
    | none => ⟨db', none, none⟩
  else
    ⟨db, none, none⟩

/- ### Concrete states used by claim-specific evaluations -/

def C1u1 : User := ⟨"u1", "alice", bcryptHash 10 "secret1", none, none⟩

def C1u2 : User := ⟨"u2", "bob", bcryptHash 10 "secret2", some 42, some "ik-u2"⟩

def C1u3 : User := ⟨"u3", "carol", bcryptHash 10 "secret3", none, none⟩

def C1prekey : PreKey := ⟨"pk1", "u2", 7, "otk-7"⟩

def C1spk : SignedPreKey := ⟨"spk1", "u2", 3, "spub-3", "sig-3"⟩

/-- Store in which principal `u2` has published exactly one one-time
pre-key (`key_id` 7) and one signed pre-key. -/
def C1db : DB := ⟨[C1u1, C1u2, C1u3], [], [], [C1prekey], [C1spk]⟩

/-- C1: handing out a one-time pre-key is claimed to mark it consumed, so a
later exchange for the same peer must not return it.  In the source the
exchange handler runs only `SELECT` statements (no `DELETE`/`UPDATE` on
`pre_keys`), so the store is unchanged and a second initiator receives the
very same one-time pre-key `key_id = 7`. -/
theorem exchange_reuses_one_time_prekey :
    (keysExchangeHandler C1db "u1" (some "u2") (some "bundle-from-u1")).1
      = .ok (recipientKeysOf C1u2 [C1prekey] [C1spk])
    ∧ (keysExchangeHandler C1db "u1" (some "u2") (some "bundle-from-u1")).2 = C1db
    ∧ (keysExchangeHandler C1db "u3" (some "u2") (some "bundle-from-u3")).1
      = .ok (recipientKeysOf C1u2 [C1prekey] [C1spk])
    ∧ (recipientKeysOf C1u2 [C1prekey] [C1spk]).preKeyId = some 7 := by
  decide

/-- C2: the exchange handler requires `publicKeyBundle` to be present but
then ignores it entirely — the response is identical for two different
initiator bundle payloads and the store is left unchanged, so nothing is
stored or forwarded for the responder. -/
theorem exchange_discards_bundle_payload :
    keysExchangeHandler C1db "u1" (some "u2") (some "initiator-bundle-A")
      = keysExchangeHandler C1db "u1" (some "u2") (some "initiator-bundle-B")
    ∧ (keysExchangeHandler C1db "u1" (some "u2") (some "initiator-bundle-A")).2
      = C1db := by
  decide

/-- C6: after principal `u1` reconnects on socket 2, the stale disconnect of
socket 1 still deletes the registry entry unconditionally, evicting the
newer connection (the lookup afterwards is `none`, not `some 2`). -/
theorem stale_disconnect_evicts_newer_connection :
    mapGet (connectionHandler (connectionHandler [] "u1" 1) "u1" 2) "u1" = some 2
    ∧ mapGet (disconnectHandler
        (connectionHandler (connectionHandler [] "u1" 1) "u1" 2) "u1" 1) "u1"
      = none := by
  decide

def C3bob : User := ⟨"u2", "bob", bcryptHash 10 "pw2", some 9, some "ik-b"⟩

/-- Store in which `u2` exists but has never published any pre-key material
(in particular no signed pre-key). -/
def C3db : DB := ⟨[C3bob], [], [], [], []⟩

/-- C3 (counterexample): for a peer that exists but has never published a
signed pre-key, the exchange succeeds with all key fields absent instead of
failing `NotFound`. -/
theorem exchange_ok_without_signed_prekey_cex :
    (keysExchangeHandler C3db "u1" (some "u2") (some "initiator-bundle")).1
      = .ok { registrationId := some 9, identityKey := some "ik-b",
              preKeyId := none, preKeyPublic := none,
              signedPreKeyId := none, signedPreKeyPublic := none,
              signedPreKeySignature := none } := by
  decide

def C4db : DB := ⟨[⟨"u1", "alice", bcryptHash 10 "pw1", none, none⟩], [], [], [], []⟩

/-- C4 (counterexample): a principal whose token carries id `u1` and handle
`alice` but who is absent from the store adds its own handle as a contact;
the handle lookup fails first, so the response is `404 User not found`, not
the `InvalidInput` self-add rejection. -/
theorem addContact_self_nonexistent_notFound_cex :
    (addContactHandler emptyDB (JwtPayload.mk "u1" "alice").id
        (some (JwtPayload.mk "u1" "alice").username) "c1" true).1
      = .err 404 "User not found"
    ∧ (addContactHandler emptyDB (JwtPayload.mk "u1" "alice").id
        (some (JwtPayload.mk "u1" "alice").username) "c1" true).1
      ≠ .err 400 "Cannot add yourself as a contact" := by
  decide

/-- C4 (amended): when the owner's own handle does resolve to a stored
principal whose id is the owner's id, the self-add rejection fires with the
`InvalidInput` response; the rejection is reached only after handle
resolution succeeds. -/
theorem addContact_self_invalidInput (db : DB) (userId uname newEdgeId : String)
    (insertOk : Bool) (c : User)
    (hne : (uname == "") = false)
    (hfind : db.users.find? (fun u => u.username == uname) = some c)
    (hself : c.id = userId) :
    (addContactHandler db userId (some uname) newEdgeId insertOk).1
      = .err 400 "Cannot add yourself as a contact" := by
  simp [addContactHandler, hne, hfind, hself]

/-- Witness for `addContact_self_invalidInput` at a store containing the
owner `u1` with handle `alice`. -/
theorem addContact_self_invalidInput_witness :
    (addContactHandler C4db "u1" (some "alice") "c9" true).1
      = .err 400 "Cannot add yourself as a contact" :=
  addContact_self_invalidInput C4db "u1" "alice" "c9" true
    ⟨"u1", "alice", bcryptHash 10 "pw1", none, none⟩
    (by decide) (by decide) rfl

/-- C3 (amended): the exchange responds `404 Contact not found` exactly when
no principal with the requested id exists; if the principal exists, the
response is `200` even when it has never published a signed pre-key, with
all signed-pre-key fields absent (and one-time-key fields likewise absent
when none are stored). -/
theorem exchange_notFound_iff_principal_absent (db : DB)
    (userId cid bundle : String)
    (hcid : (cid == "") = false) (hb : (bundle == "") = false) :
    (db.users.find? (fun u => u.id == cid) = none →
      (keysExchangeHandler db userId (some cid) (some bundle)).1
        = .err 404 "Contact not found")
    ∧ ∀ u, db.users.find? (fun x => x.id == cid) = some u →
        db.signed_pre_keys.filter (fun k => k.user_id == cid) = [] →
        (keysExchangeHandler db userId (some cid) (some bundle)).1
          = .ok (recipientKeysOf u
              ((db.pre_keys.filter (fun k => k.user_id == cid)).take 1) []) := by
  constructor
  · intro habsent
    simp [keysExchangeHandler, optFalsy, hcid, hb, habsent]
  · intro u hu hspk
    simp [keysExchangeHandler, optFalsy, hcid, hb, hu, hspk]

/-- Witness for `exchange_notFound_iff_principal_absent`: `u2` exists with
no published signed pre-key; the exchange succeeds. -/
theorem exchange_notFound_iff_principal_absent_witness :
    (keysExchangeHandler C3db "u1" (some "u2") (some "initiator-bundle")).1
      = .ok (recipientKeysOf C3bob
          ((C3db.pre_keys.filter (fun k => k.user_id == "u2")).take 1) []) :=
  (exchange_notFound_iff_principal_absent C3db "u1" "u2" "initiator-bundle"
    (by decide) (by decide)).2 C3bob (by decide) (by decide)

/-- C10: the exchange response is invariant under arbitrary changes to the
`contacts` table, and once a principal with the requested id exists (and the
request fields are present) the call succeeds with that principal's bundle —
no contact edge between initiator and peer is required. -/
theorem exchange_ignores_contact_edges (db : DB) (cs : List Contact)
    (userId cid bundle : String) (u : User)
    (hcid : (cid == "") = false) (hb : (bundle == "") = false)
    (hu : db.users.find? (fun x => x.id == cid) = some u) :
    (keysExchangeHandler { db with contacts := cs } userId
        (some cid) (some bundle)).1
      = (keysExchangeHandler db userId (some cid) (some bundle)).1
    ∧ (keysExchangeHandler db userId (some cid) (some bundle)).1
      = .ok (recipientKeysOf u
          ((db.pre_keys.filter (fun k => k.user_id == cid)).take 1)
          ((db.signed_pre_keys.filter (fun k => k.user_id == cid)).take 1)) := by
  constructor
  · simp [keysExchangeHandler, optFalsy, hcid, hb, hu]
  · simp [keysExchangeHandler, optFalsy, hcid, hb, hu]

/-- Witness for `exchange_ignores_contact_edges`: in `C1db` the contacts
table is empty (no edge in either direction between `u1` and `u2`), yet the
exchange for peer `u2` succeeds. -/
theorem exchange_ignores_contact_edges_witness :
    (keysExchangeHandler C1db "u1" (some "u2") (some "initiator-bundle")).1
      = .ok (recipientKeysOf C1u2
          ((C1db.pre_keys.filter (fun k => k.user_id == "u2")).take 1)
          ((C1db.signed_pre_keys.filter (fun k => k.user_id == "u2")).take 1)) :=
  (exchange_ignores_contact_edges C1db [] "u1" "u2" "initiator-bundle" C1u2
    (by decide) (by decide) (by decide)).2

/-- Store reached from empty by two `send_message` events whose rows receive
the same `CURRENT_TIMESTAMP` second, the earlier row drawing the
lexicographically larger random message id. -/
def C5db : DB :=
  (sendMessageHandler
    (sendMessageHandler emptyDB [] "uA" "uB" "ct-1" none "msg_zz" 5 true).db
    [] "uB" "uA" "ct-2" none "msg_aa" 5 true).db

/-- The compound `(timestamp, id)` ascending key the claim asserts for
history retrieval (string ids compared codepoint-lexicographically). -/
def byTimestampId (a b : Message) : Prop :=
  a.timestamp < b.timestamp ∨ (a.timestamp = b.timestamp ∧ a.id.data ≤ b.id.data)

instance : DecidableRel byTimestampId := fun a b => by
  unfold byTimestampId; infer_instance

/-- C5 (counterexample): the query orders by `timestamp` only, so two
envelopes with colliding timestamps come back in insertion order, which here
is not ascending in the `(timestamp, id)` compound key. -/
theorem history_not_sorted_by_ts_id_cex :
    messagesHandler C5db "uA" "uB"
      = [⟨"msg_zz", "uA", "uB", "ct-1", none, 5⟩,
         ⟨"msg_aa", "uB", "uA", "ct-2", none, 5⟩]
    ∧ ¬ List.Sorted byTimestampId (messagesHandler C5db "uA" "uB") := by
  decide

/-- C5 (amended): both views of a pair's history are the same list (same
envelope set, same order, both directions included), sorted ascending by
`timestamp`; with equal timestamps the order is the stable insertion order,
not the `(timestamp, id)` compound key. -/
theorem history_symmetric_sorted (db : DB) (userId contactId : String) :
    messagesHandler db userId contactId = messagesHandler db contactId userId
    ∧ List.Sorted byTimestamp (messagesHandler db userId contactId)
    ∧ ∀ m ∈ db.messages,
        (m.sender_id = userId ∧ m.recipient_id = contactId) ∨
        (m.sender_id = contactId ∧ m.recipient_id = userId) →
        m ∈ messagesHandler db userId contactId := by
  refine ⟨?_, List.sorted_insertionSort byTimestamp _, ?_⟩
  · unfold messagesHandler
    have hfil : db.messages.filter (fun m =>
          (m.sender_id == userId && m.recipient_id == contactId) ||
          (m.sender_id == contactId && m.recipient_id == userId))
        = db.messages.filter (fun m =>
          (m.sender_id == contactId && m.recipient_id == userId) ||
          (m.sender_id == userId && m.recipient_id == contactId)) :=
      List.filter_congr (fun x _ => Bool.or_comm _ _)
    rw [hfil]
  · intro m hm hdir
    unfold messagesHandler
    rw [(List.perm_insertionSort byTimestamp _).mem_iff, List.mem_filter]
    refine ⟨hm, ?_⟩
    rcases hdir with ⟨h1, h2⟩ | ⟨h1, h2⟩ <;> simp [h1, h2]

/-- Witness for `history_symmetric_sorted` on the colliding-timestamp
store. -/
theorem history_symmetric_sorted_witness :
    messagesHandler C5db "uA" "uB" = messagesHandler C5db "uB" "uA"
    ∧ (⟨"msg_zz", "uA", "uB", "ct-1", none, 5⟩ : Message)
        ∈ messagesHandler C5db "uA" "uB" :=
  ⟨(history_symmetric_sorted C5db "uA" "uB").1,
   (history_symmetric_sorted C5db "uA" "uB").2.2 _ (by decide) (by decide)⟩

/-- C7: the `send_message` handler emits nothing back to the sender in any
case; if the INSERT fails the store and registry-facing output are exactly
as if nothing happened (no push, no acknowledgment, store unchanged); and a
push can only occur on successful persistence, with the envelope present in
the resulting store and the recipient live in the registry. -/
theorem send_persists_before_push (db : DB) (reg : List (String × Nat))
    (sid rid enc : String) (pt : Option String) (mid : String) (now : Nat)
    (ok : Bool) :
    (sendMessageHandler db reg sid rid enc pt mid now ok).ack = none
    ∧ (ok = false →
        sendMessageHandler db reg sid rid enc pt mid now ok = ⟨db, none, none⟩)
    ∧ ((sendMessageHandler db reg sid rid enc pt mid now ok).pushed.isSome = true →
        ok = true
        ∧ (⟨mid, sid, rid, enc, pt, now⟩ : Message)
            ∈ (sendMessageHandler db reg sid rid enc pt mid now ok).db.messages
        ∧ (mapGet reg rid).isSome = true) := by
  cases ok with
  | false => simp [sendMessageHandler]
  | true =>
    cases hg : mapGet reg rid with
    | none => simp [sendMessageHandler, hg]
    | some sock => simp [sendMessageHandler, hg]

/-- Witness for `send_persists_before_push`: a failed INSERT leaves
everything untouched; a successful one persists the envelope (here with the
recipient online on socket 7). -/
theorem send_persists_before_push_witness :
    sendMessageHandler emptyDB [("u2", 7)] "u1" "u2" "ct" none "m1" 3 false
      = ⟨emptyDB, none, none⟩
    ∧ (⟨"m1", "u1", "u2", "ct", none, 3⟩ : Message)
        ∈ (sendMessageHandler emptyDB [("u2", 7)] "u1" "u2" "ct" none "m1" 3
            true).db.messages :=
  ⟨(send_persists_before_push emptyDB [("u2", 7)] "u1" "u2" "ct" none "m1" 3
      false).2.1 rfl,
   ((send_persists_before_push emptyDB [("u2", 7)] "u1" "u2" "ct" none "m1" 3
      true).2.2 (by decide)).2.1⟩

/-- C8: with a valid handle and secret and an untaken handle, registration
succeeds and creates a principal `newId`; logging in afterwards with the
same pair succeeds; and verifying the login token (within its validity
window) yields the very same principal id and handle. -/
theorem register_login_verify_roundtrip (db : DB) (hdl scrt uid : String)
    (now1 now2 now3 : Nat)
    (hh3 : 3 ≤ hdl.length) (hh30 : hdl.length ≤ 30) (hs6 : 6 ≤ scrt.length)
    (hfree : ∀ u ∈ db.users, u.username ≠ hdl)
    (hwin : now3 < now2 + 604800) :
    (registerHandler db (some hdl) (some scrt) uid now1 true).1
      = .ok (jwtSign uid hdl JWT_SECRET now1, uid, hdl)
    ∧ loginHandler ((registerHandler db (some hdl) (some scrt) uid now1 true).2)
        (some hdl) (some scrt) now2
      = .ok (jwtSign uid hdl JWT_SECRET now2, uid, hdl)
    ∧ jwtVerify (jwtSign uid hdl JWT_SECRET now2) JWT_SECRET now3
      = .ok ⟨uid, hdl⟩ := by
  have hne : (hdl == "") = false := by
    rcases e : hdl == "" with _ | _
    · rfl
    · rw [beq_iff_eq] at e
      subst e
      simp at hh3
  have hsne : (scrt == "") = false := by
    rcases e : scrt == "" with _ | _
    · rfl
    · rw [beq_iff_eq] at e
      subst e
      simp at hs6
  have e1 : (decide (hdl.length < 3) || decide (30 < hdl.length)) = false := by
    simp
    omega
  have e2 : decide (scrt.length < 6) = false := by
    simp
    omega
  have e3 : db.users.any (fun u => u.username == hdl) = false := by
    rw [List.any_eq_false]
    intro u hu
    simpa using hfree u hu
  have hreg : registerHandler db (some hdl) (some scrt) uid now1 true
      = (.ok (jwtSign uid hdl JWT_SECRET now1, uid, hdl),
         { db with users :=
             db.users ++ [⟨uid, hdl, bcryptHash 10 scrt, none, none⟩] }) := by
    simp [registerHandler, optFalsy, hne, hsne, e1, e2, e3]
    all_goals omega
  refine ⟨by rw [hreg], ?_, ?_⟩
  · rw [hreg]
    have hnonefind : db.users.find? (fun u => u.username == hdl) = none :=
      List.find?_eq_none.2 (fun u hu => by simpa using hfree u hu)
    simp [loginHandler, optFalsy, hne, hsne, List.find?_append, hnonefind,
      List.find?, bcryptCompare]
  · simp only [jwtVerify, jwtSign]
    rw [if_neg (by simp), if_neg (by omega)]

/-- Witness for `register_login_verify_roundtrip` with handle `alice` and
secret `secret1` on the empty store. -/
theorem register_login_verify_roundtrip_witness :
    (registerHandler emptyDB (some "alice") (some "secret1") "user_1" 0 true).1
      = .ok (jwtSign "user_1" "alice" JWT_SECRET 0, "user_1", "alice")
    ∧ loginHandler
        ((registerHandler emptyDB (some "alice") (some "secret1") "user_1" 0
          true).2) (some "alice") (some "secret1") 10
      = .ok (jwtSign "user_1" "alice" JWT_SECRET 10, "user_1", "alice")
    ∧ jwtVerify (jwtSign "user_1" "alice" JWT_SECRET 10) JWT_SECRET 20
      = .ok ⟨"user_1", "alice"⟩ :=
  register_login_verify_roundtrip emptyDB "alice" "secret1" "user_1" 0 10 20
    (by decide) (by decide) (by decide) (by decide) (by decide)

/-- C9: whenever one token fails verification because it is expired and
another because its signature does not match, the HTTP middleware and the
socket handshake guard produce identical caller-visible responses for the
two, so the response surface cannot distinguish expired from forged. -/
theorem token_error_indistinguishability (t1 t2 : Token) (now1 now2 : Nat)
    (h1 : jwtVerify t1 JWT_SECRET now1 = .error .tokenExpired)
    (h2 : jwtVerify t2 JWT_SECRET now2 = .error .invalidSignature) :
    authenticateToken (some t1) now1 = authenticateToken (some t2) now2
    ∧ ioUseAuth (some t1) now1 = ioUseAuth (some t2) now2
    ∧ authenticateToken (some t1) now1 = .err 403 "Invalid token"
    ∧ ioUseAuth (some t1) now1 = .error "Authentication error" := by
  simp [authenticateToken, ioUseAuth, h1, h2]

/-- Witness for `token_error_indistinguishability`: a genuinely signed but
expired token checked at its expiry instant versus a token with a forged
signature. -/
theorem token_error_indistinguishability_witness :
    jwtVerify (jwtSign "u1" "alice" JWT_SECRET 0) JWT_SECRET 604800
      = .error .tokenExpired
    ∧ jwtVerify ⟨"u1", "alice", 604800, "forged"⟩ JWT_SECRET 0
      = .error .invalidSignature
    ∧ authenticateToken (some (jwtSign "u1" "alice" JWT_SECRET 0)) 604800
      = authenticateToken (some ⟨"u1", "alice", 604800, "forged"⟩) 0
    ∧ ioUseAuth (some (jwtSign "u1" "alice" JWT_SECRET 0)) 604800
      = ioUseAuth (some ⟨"u1", "alice", 604800, "forged"⟩) 0 :=
  ⟨by decide, by decide,
   (token_error_indistinguishability (jwtSign "u1" "alice" JWT_SECRET 0)
     ⟨"u1", "alice", 604800, "forged"⟩ 604800 0 (by decide) (by decide)).1,
   (token_error_indistinguishability (jwtSign "u1" "alice" JWT_SECRET 0)
     ⟨"u1", "alice", 604800, "forged"⟩ 604800 0 (by decide) (by decide)).2.1⟩
